import Mathlib

/-!
Verification of the conversation-state machine and bounded-concurrency
transcription pipeline of a small audio-transcription server
(`src/server.js`).  JavaScript strings are embedded as lists of characters;
the mutable module-level variables (`lastSummary`, `originalSummary`,
`awaitingAmendment`, `currentConcurrentRequests`) become an explicit state
record threaded through the handlers; the two network collaborators (the
Gemini inference endpoint and the Telegram `sendMessage` transport) and the
ffmpeg transcoder are modelled by oracles supplying their outcomes, so that
every control path of the handlers is covered by quantifying over the
oracles.
-/

/-- JavaScript strings are modelled as lists of characters. -/
abbrev Str := List Char

/-- JavaScript `String.prototype.trim`: drop whitespace from both ends. -/
def jsTrim (s : Str) : Str :=
  ((s.dropWhile Char.isWhitespace).reverse.dropWhile Char.isWhitespace).reverse

/-- JavaScript `String.prototype.startsWith`. -/
def jsStartsWith (s pre : Str) : Bool := pre.isPrefixOf s

/-- JavaScript `String.prototype.endsWith`. -/
def jsEndsWith (s suf : Str) : Bool := suf.isSuffixOf s

/-- JavaScript truthiness of a nullable string: `null`/`undefined` and the
empty string are falsy. -/
def truthyOpt : Option Str → Bool
  | none => false
  | some s => !s.isEmpty

/-- `MAX_TELEGRAM_MESSAGE_LENGTH` (src/server.js line 22). -/
def MAX_TELEGRAM_MESSAGE_LENGTH : Nat := 4096

/-- `splitMessage` (src/server.js lines 31-37): fixed-width slicing of a text
into fragments of at most `maxLength` characters.  The JavaScript loop
`for (i = 0; i < text.length; i += maxLength)` pushes
`text.substring(i, i + maxLength)`; for `maxLength = 0` the JavaScript loop
would not terminate, so the Lean function is only meaningful for positive
`maxLength` (it returns `[]` at zero, an arbitrary total completion). -/
def splitMessage (text : Str) (maxLength : Nat) : List Str :=
  if h : text = [] ∨ maxLength = 0 then []
  else text.take maxLength :: splitMessage (text.drop maxLength) maxLength
termination_by text.length
decreasing_by
  push_neg at h
  have h1 : 0 < text.length := List.length_pos.mpr h.1
  simp only [List.length_drop]
  omega

theorem splitMessage_nil (L : Nat) : splitMessage [] L = [] := by
  rw [splitMessage]
  simp

theorem splitMessage_join (t : Str) (L : Nat) : 0 < L → (splitMessage t L).flatten = t := by
  induction t, L using splitMessage.induct with
  | case1 t L h =>
    intro hL
    rw [splitMessage, dif_pos h]
    rcases h with h | h
    · simp [h]
    · omega
  | case2 t L h ih =>
    intro hL
    rw [splitMessage, dif_neg h]
    simp only [List.flatten_cons]
    rw [ih hL, List.take_append_drop]

theorem splitMessage_mem_length (t : Str) (L : Nat) :
    ∀ f ∈ splitMessage t L, f.length ≤ L := by
  induction t, L using splitMessage.induct with
  | case1 t L h =>
    rw [splitMessage, dif_pos h]
    simp
  | case2 t L h ih =>
    rw [splitMessage, dif_neg h]
    intro f hf
    rcases List.mem_cons.mp hf with hf | hf
    · subst hf
      exact List.length_take_le L t
    · exact ih f hf

theorem splitMessage_single (t : Str) (L : Nat) (h1 : t ≠ []) (h2 : t.length ≤ L) :
    splitMessage t L = [t] := by
  have hL : L ≠ 0 := by
    intro h0
    subst h0
    exact h1 (List.eq_nil_of_length_eq_zero (Nat.le_zero.mp h2))
  rw [splitMessage, dif_neg (by simp [h1, hL])]
  rw [List.take_of_length_le h2, List.drop_eq_nil_of_le h2, splitMessage_nil]

/-- Claim C1: Chunker contract.  For every text `T` and positive `maxLength`
`L`, `splitMessage T L` is an ordered sequence of fragments whose
concatenation reproduces `T` exactly, each fragment has length at most `L`,
the empty text yields the empty sequence, and a nonempty text of length at
most `L` yields exactly one fragment equal to the text.  (The empty text is
governed by the dedicated empty-input clause, hence the nonemptiness guard
on the single-fragment clause.) -/
theorem C1_chunker_contract (T : Str) (L : Nat) (hL : 0 < L) :
    (splitMessage T L).flatten = T ∧
    (∀ f ∈ splitMessage T L, f.length ≤ L) ∧
    splitMessage [] L = [] ∧
    (T ≠ [] → T.length ≤ L → splitMessage T L = [T]) :=
  ⟨splitMessage_join T L hL, splitMessage_mem_length T L,
   splitMessage_nil L, fun h1 h2 => splitMessage_single T L h1 h2⟩

/-- Concrete instantiation of the chunker contract at `T = "abcde"`, `L = 2`. -/
theorem C1_chunker_contract_witness :
    0 < 2 ∧
    ((splitMessage "abcde".data 2).flatten = "abcde".data ∧
     (∀ f ∈ splitMessage "abcde".data 2, f.length ≤ 2) ∧
     splitMessage [] 2 = [] ∧
     ("abcde".data ≠ [] → "abcde".data.length ≤ 2 → splitMessage "abcde".data 2 = ["abcde".data])) :=
  ⟨by decide, C1_chunker_contract "abcde".data 2 (by decide)⟩

/-- The module-level mutable conversation state of src/server.js:
`lastSummary` (line 24, which despite its name stores the full transcription),
`originalSummary` (line 25, the current summary), and `awaitingAmendment`
(line 26).  `none` models JavaScript `null`. -/
structure ServerState where
  lastSummary : Option Str
  originalSummary : Option Str
  awaitingAmendment : Bool
deriving DecidableEq, Repr

/-- The initial state (lines 24-26): both texts `null`, flag `false`. -/
def initialState : ServerState := ⟨none, none, false⟩

/-- Outcome of one Gemini `fetch` as classified by the handlers:
`ok text` (HTTP success with a first candidate text part), `overloaded`
(non-ok response whose error message contains `model is overloaded`),
`remoteError` (other non-ok response), `emptyResult` (ok response without
the expected candidate shape), `transportError` (the `fetch` threw). -/
inductive InferResult where
  | ok (text : Str)
  | overloaded
  | remoteError (msg : Str)
  | emptyResult
  | transportError (msg : Str)
deriving DecidableEq, Repr

/-- Result of dispatching one inbound Telegram message: the new state, the
texts passed to `bot.sendMessage` in order, and how many Gemini calls were
attempted. -/
structure MsgOutcome where
  state : ServerState
  sends : List Str
  inferCalls : Nat
deriving DecidableEq, Repr

/-- Fixed chat notice used on every `model is overloaded` branch. -/
def overloadNotice : Str := "Gemini model is overloaded. Please try again later.".data

/-- The `/transcription` branch (src/server.js lines 42-54): if the stored
transcription is truthy and not whitespace-only, chunk it and send every
fragment, prefixing `Transcription:` to the first; otherwise reply that no
transcription is available.  No state change. -/
def transcriptionReply (st : ServerState) : MsgOutcome :=
  match st.lastSummary with
  | some s =>
    if s ≠ [] ∧ jsTrim s ≠ [] then
      match splitMessage s MAX_TELEGRAM_MESSAGE_LENGTH with
      | [] => ⟨st, [], 0⟩
      | m :: rest => ⟨st, ("Transcription:\n\n".data ++ m) :: rest, 0⟩
    else ⟨st, ["No transcription available yet. Please upload an audio file first.".data], 0⟩
  | none => ⟨st, ["No transcription available yet. Please upload an audio file first.".data], 0⟩

/-- The `/amend` branch body (src/server.js lines 55-59). -/
def amendEnable (st : ServerState) : MsgOutcome :=
  ⟨{ st with awaitingAmendment := true },
   ["Amendment mode enabled. Please send the amendment instructions for the summary.".data], 0⟩

/-- The amendment-instruction branch body (src/server.js lines 60-168): the
flag is cleared before the Gemini call; on success the summary is
overwritten with the trimmed result and a second, regeneration call is
chained whose success overwrites the summary again; every failure of either
call is reported to the chat and the earlier writes are kept. -/
def amendInstruction (st : ServerState) (infer : Nat → InferResult) : MsgOutcome :=
  let st1 := { st with awaitingAmendment := false }
  match infer 0 with
  | .overloaded => ⟨st1, [overloadNotice], 1⟩
  | .remoteError m => ⟨st1, ["Gemini API error: ".data ++ m], 1⟩
  | .emptyResult => ⟨st1, ["Gemini API did not return an amended summary.".data], 1⟩
  | .transportError m => ⟨st1, ["Error amending summary: ".data ++ m], 1⟩
  | .ok r =>
    let s1 := jsTrim r
    let st2 := { st1 with originalSummary := some s1 }
    let firstSend := "Summary amended:\n\n".data ++ s1
    match infer 1 with
    | .overloaded => ⟨st2, [firstSend, overloadNotice], 2⟩
    | .remoteError m => ⟨st2, [firstSend, "Gemini API error during regeneration: ".data ++ m], 2⟩
    | .emptyResult => ⟨st2, [firstSend, "Gemini API did not return a regenerated summary.".data], 2⟩
    | .transportError m => ⟨st2, [firstSend, "Error regenerating summary: ".data ++ m], 2⟩
    | .ok r2 =>
      ⟨{ st2 with originalSummary := some (jsTrim r2) },
       [firstSend, "Regenerated summary:\n\n".data ++ jsTrim r2], 2⟩

/-- The `/ask` branch body (src/server.js lines 169-236): requires a
nonempty question and truthy transcription and summary before one Gemini
call; never mutates the state. -/
def askReply (st : ServerState) (t : Str) (infer : Nat → InferResult) : MsgOutcome :=
  let question := jsTrim (t.drop 4)
  if question = [] then
    ⟨st, ["Please provide a question after /ask.".data], 0⟩
  else if truthyOpt st.lastSummary = false ∨ truthyOpt st.originalSummary = false then
    ⟨st, ["Please upload an audio file first to generate a summary and transcription.".data], 0⟩
  else
    match infer 0 with
    | .ok a => ⟨st, ["Answer:\n\n".data ++ jsTrim a], 1⟩
    | .overloaded => ⟨st, [overloadNotice], 1⟩
    | .remoteError m => ⟨st, ["Gemini API error: ".data ++ m], 1⟩
    | .emptyResult => ⟨st, ["Gemini API did not return an answer.".data], 1⟩
    | .transportError m => ⟨st, ["Error answering question: ".data ++ m], 1⟩

/-- The `bot.on('message')` dispatcher (src/server.js lines 40-242).
Messages from a chat other than the configured one are ignored (line 41);
every branch requires truthy message text; the branches are evaluated in
source order: `/transcription` (trimmed match), `/amend` (trimmed match,
requires a stored transcription), the amendment-instruction consumer
(requires a stored transcription and the flag), `/ask` (untrimmed leading
match), and finally the free-text summary overwrite (requires a stored
transcription, the flag clear, and text not starting with `/`). -/
def processMessage (cfg : Str) (st : ServerState) (chatId : Option Str)
    (text : Option Str) (infer : Nat → InferResult) : MsgOutcome :=
  if chatId = some cfg then
    match text with
    | none => ⟨st, [], 0⟩
    | some t =>
      if t = [] then ⟨st, [], 0⟩
      else if jsTrim t = "/transcription".data then transcriptionReply st
      else if st.lastSummary ≠ none ∧ jsTrim t = "/amend".data then amendEnable st
      else if st.lastSummary ≠ none ∧ st.awaitingAmendment = true ∧ jsTrim t ≠ "/amend".data then
        amendInstruction st infer
      else if jsStartsWith t "/ask".data = true then askReply st t infer
      else if st.lastSummary ≠ none ∧ st.awaitingAmendment = false ∧ jsStartsWith t "/".data = false then
        ⟨{ st with originalSummary := some t }, ["Summary updated:\n\n".data ++ t], 0⟩
      else ⟨st, [], 0⟩
  else ⟨st, [], 0⟩

/-- `MAX_CONCURRENT_REQUESTS` (src/server.js line 248). -/
def MAX_CONCURRENT_REQUESTS : Nat := 5

/-- `MAX_FILE_SIZE_BEFORE_COMPRESSION` (src/server.js line 28): 10 MB. -/
def MAX_FILE_SIZE_BEFORE_COMPRESSION : Nat := 10 * 1024 * 1024

/-- `fiftyMB` (src/server.js line 246): the multer `fileSize` limit. -/
def fiftyMB : Nat := 50 * 1024 * 1024

/-- The admission check at the top of the `/transcribe` handler
(src/server.js lines 262-265): if the counter has reached the ceiling the
request is rejected with no side effect, otherwise the counter is
incremented and the request admitted. -/
def tryEnter (c : Nat) : Bool × Nat :=
  if MAX_CONCURRENT_REQUESTS ≤ c then (false, c) else (true, c + 1)

/-- The `finally` release (src/server.js line 448): unconditional decrement. -/
def leave (c : Nat) : Nat := c - 1

/-- A batch of `N` consecutive `tryEnter` calls with no interleaved `leave`,
starting from counter value `c`: counts admissions and rejections. -/
structure AdmissionRun where
  admitted : Nat
  rejected : Nat
  counter : Nat
deriving DecidableEq, Repr

def runTryEnters : Nat → Nat → AdmissionRun
  | 0, c => ⟨0, 0, c⟩
  | n + 1, c =>
    match tryEnter c with
    | (true, c') => let r := runTryEnters n c'; ⟨r.admitted + 1, r.rejected, r.counter⟩
    | (false, c') => let r := runTryEnters n c'; ⟨r.admitted, r.rejected + 1, r.counter⟩

def applyLeaves : Nat → Nat → Nat
  | 0, c => c
  | n + 1, c => applyLeaves n (leave c)

/-- One uploaded file as the handler sees it: declared filename, payload
size in bytes, and whether the in-memory buffer is available. -/
structure UploadFile where
  originalname : Str
  size : Nat
  bufferAvail : Bool
deriving DecidableEq, Repr

/-- Outcomes of the external collaborators for one request: whether the
ffmpeg transcoding succeeds, the classified result of the n-th Gemini call,
and whether the n-th `bot.sendMessage` call succeeds. -/
structure Oracles where
  transcodeOk : Bool
  infer : Nat → InferResult
  sendOk : Nat → Bool

/-- Result of one `POST /transcribe` request: final conversation state,
final admission counter, HTTP status and body, the texts passed to
`bot.sendMessage` in order attempted, whether ffmpeg transcoding was
attempted, the number of Gemini calls attempted, the number of times the
admission counter was decremented, and whether the request was admitted. -/
structure TranscribeOutcome where
  state : ServerState
  counter : Nat
  status : Nat
  body : Str
  sends : List Str
  transcoded : Bool
  inferCalls : Nat
  leaves : Nat
  admitted : Bool
deriving DecidableEq, Repr

/-- Intermediate result of the handler body (everything inside the `try` of
src/server.js lines 267-446, which never touches the admission counter). -/
structure BodyOutcome where
  state : ServerState
  status : Nat
  body : Str
  sends : List Str
  transcoded : Bool
  inferCalls : Nat
deriving DecidableEq, Repr

/-- The sequential delivery loop (src/server.js lines 430-432): fragments
are sent one at a time; the first failing `sendMessage` throws and aborts
the loop.  Returns the attempted sends and whether all succeeded. -/
def deliver (sendOk : Nat → Bool) : Nat → List Str → List Str × Bool
  | _, [] => ([], true)
  | i, m :: rest =>
    if sendOk i then
      let r := deliver sendOk (i + 1) rest
      (m :: r.1, r.2)
    else ([m], false)

/-- The `try` body of the `/transcribe` handler (src/server.js lines
267-446): missing-file and missing-buffer checks, then — in this source
order — optional ffmpeg compression for payloads over 10 MB, then the
extension allow-list check, then the transcription call (storing the
trimmed transcript in `lastSummary` on success), then the summary call
(storing the trimmed summary in `originalSummary` on success), then the
chunked delivery of the composed summary message. -/
def transcribeTry (st : ServerState) (req : Option UploadFile) (o : Oracles) : BodyOutcome :=
  match req with
  | none => ⟨st, 400, "No audio file uploaded.".data, [], false, 0⟩
  | some f =>
    if f.bufferAvail = false then
      ⟨st, 500, "File buffer not available.".data, [], false, 0⟩
    else
      let needsCompression := MAX_FILE_SIZE_BEFORE_COMPRESSION < f.size
      if needsCompression ∧ o.transcodeOk = false then
        ⟨st, 500, "Error processing audio file: ffmpeg failed".data, [], true, 0⟩
      else
        let tr := needsCompression
        if jsEndsWith f.originalname ".mp3".data = true ∨
           jsEndsWith f.originalname ".wav".data = true ∨
           jsEndsWith f.originalname ".flac".data = true ∨
           jsEndsWith f.originalname ".m4a".data = true then
          match o.infer 0 with
          | .transportError m =>
            ⟨st, 500, "Error calling Gemini API: ".data ++ m, [], tr, 1⟩
          | .overloaded =>
            if o.sendOk 0 then
              ⟨st, 503, "Gemini model is overloaded. Please try again later.".data, [overloadNotice], tr, 1⟩
            else
              ⟨st, 500, "Error calling Gemini API: send failed".data, [overloadNotice], tr, 1⟩
          | .remoteError m => ⟨st, 500, m, [], tr, 1⟩
          | .emptyResult =>
            ⟨st, 500, "Gemini API response did not contain expected content.".data, [], tr, 1⟩
          | .ok t =>
            let st1 := { st with lastSummary := some (jsTrim t) }
            match o.infer 1 with
            | .transportError m =>
              ⟨st1, 500, "Error calling Gemini API for summary: ".data ++ m, [], tr, 2⟩
            | .overloaded =>
              if o.sendOk 0 then
                ⟨st1, 503, "Gemini model is overloaded. Please try again later.".data, [overloadNotice], tr, 2⟩
              else
                ⟨st1, 500, "Error calling Gemini API for summary: send failed".data, [overloadNotice], tr, 2⟩
            | .remoteError m => ⟨st1, 500, m, [], tr, 2⟩
            | .emptyResult =>
              ⟨st1, 500, "Gemini API response did not contain expected summary content.".data, [], tr, 2⟩
            | .ok s =>
              let s1 := jsTrim s
              let st2 := { st1 with originalSummary := some s1 }
              let fullMessage := "Summary:\n\n".data ++
                (splitMessage s1 MAX_TELEGRAM_MESSAGE_LENGTH).flatten
              let combinedMessage := fullMessage ++
                "\n\nUse /transcription to view the full transcription.".data
              let msgs := splitMessage combinedMessage MAX_TELEGRAM_MESSAGE_LENGTH
              let d := deliver o.sendOk 0 msgs
              if d.2 then
                ⟨st2, 200, "Summary sent to Telegram successfully.".data, d.1, tr, 2⟩
              else
                ⟨st2, 500, "Error calling Gemini API for summary: send failed".data, d.1, tr, 2⟩
        else
          ⟨st, 400, "Unsupported audio file type. Please use .mp3, .wav, .flac, or .m4a.".data, [], tr, 0⟩

/-- The `/transcribe` handler (src/server.js lines 261-450): the admission
gate, then the `try` body, then the unconditional `finally` decrement of
the counter.  A rejected request returns 429 and performs nothing. -/
def transcribeHandler (st : ServerState) (c : Nat) (req : Option UploadFile)
    (o : Oracles) : TranscribeOutcome :=
  match tryEnter c with
  | (false, c') =>
    ⟨st, c', 429, "Too many simultaneous requests. Please try again later.".data,
     [], false, 0, 0, false⟩
  | (true, c') =>
    let b := transcribeTry st req o
    ⟨b.state, leave c', b.status, b.body, b.sends, b.transcoded, b.inferCalls, 1, true⟩

/-- The full route including the multer middleware (src/server.js lines
251-254 and 452-458): a payload over the 50 MB `fileSize` limit makes
multer raise `LIMIT_FILE_SIZE` before the handler runs, which the error
middleware turns into HTTP 413. -/
def transcribeRoute (st : ServerState) (c : Nat) (req : Option UploadFile)
    (o : Oracles) : TranscribeOutcome :=
  match req with
  | some f =>
    if fiftyMB < f.size then
      ⟨st, c, 413, "File too large. Please upload a file smaller than 50MB.".data,
       [], false, 0, 0, false⟩
    else transcribeHandler st c req o
  | none => transcribeHandler st c none o

/-- `GET /summary` (src/server.js lines 461-466): 404 when `lastSummary` is
`null`, otherwise 200 with `{ summary: lastSummary }`. -/
def getSummary (st : ServerState) : Nat × Option Str :=
  match st.lastSummary with
  | none => (404, none)
  | some s => (200, some s)

/-- States reachable from the initial state by any interleaving of inbound
chat messages and `/transcribe` requests, with arbitrary collaborator
outcomes. -/
inductive Reachable : ServerState → Prop where
  | init : Reachable initialState
  | chat : ∀ st cfg chatId text infer, Reachable st →
      Reachable (processMessage cfg st chatId text infer).state
  | http : ∀ st c req o, Reachable st →
      Reachable (transcribeRoute st c req o).state

theorem applyLeaves_eq (n c : Nat) : applyLeaves n c = c - n := by
  induction n generalizing c with
  | zero => simp [applyLeaves]
  | succ k ih => simp [applyLeaves, leave, ih]; omega

theorem runTryEnters_eq (N c : Nat) (hc : c ≤ MAX_CONCURRENT_REQUESTS) :
    runTryEnters N c =
      ⟨min N (MAX_CONCURRENT_REQUESTS - c), N - min N (MAX_CONCURRENT_REQUESTS - c),
       c + min N (MAX_CONCURRENT_REQUESTS - c)⟩ := by
  induction N generalizing c with
  | zero => simp [runTryEnters]
  | succ n ih =>
    by_cases h : MAX_CONCURRENT_REQUESTS ≤ c
    · have he : tryEnter c = (false, c) := by rw [tryEnter, if_pos h]
      have hc5 : c = MAX_CONCURRENT_REQUESTS := Nat.le_antisymm hc h
      simp only [runTryEnters, he, ih c hc]
      simp [AdmissionRun.mk.injEq, hc5]
    · have he : tryEnter c = (true, c + 1) := by rw [tryEnter, if_neg h]
      have hc1 : c + 1 ≤ MAX_CONCURRENT_REQUESTS := Nat.lt_of_not_le h
      simp only [runTryEnters, he, ih (c + 1) hc1]
      simp only [AdmissionRun.mk.injEq]
      refine ⟨?_, ?_, ?_⟩ <;> omega

/-- Claim C2: Admission Controller counting.  A sequence of `N` `tryEnter`
calls with no interleaved `leave`, starting from an idle counter, admits
exactly `min N 5` requests and rejects the remaining `N - min N 5`; a
rejected call leaves the counter unchanged; and after `leave` has been
called once per prior admission a fresh `tryEnter` is admitted again. -/
theorem C2_admission_counting (N : Nat) :
    (runTryEnters N 0).admitted = min N MAX_CONCURRENT_REQUESTS ∧
    (runTryEnters N 0).rejected = N - min N MAX_CONCURRENT_REQUESTS ∧
    (∀ c, (tryEnter c).1 = false → (tryEnter c).2 = c) ∧
    (tryEnter (applyLeaves (runTryEnters N 0).admitted (runTryEnters N 0).counter)).1 = true := by
  have h := runTryEnters_eq N 0 (by simp)
  refine ⟨?_, ?_, ?_, ?_⟩
  · rw [h]
    simp
  · rw [h]
    simp
  · intro c hc
    rw [tryEnter] at hc ⊢
    by_cases h5 : MAX_CONCURRENT_REQUESTS ≤ c
    · rw [if_pos h5]
    · rw [if_neg h5] at hc
      simp at hc
  · rw [h]
    simp only [applyLeaves_eq, Nat.zero_add, Nat.sub_self]
    rw [tryEnter, if_neg (by simp [MAX_CONCURRENT_REQUESTS])]

/-- Concrete instantiation of the admission counting at `N = 7`:
a rejected call (counter at the ceiling) leaves the counter unchanged. -/
theorem C2_admission_counting_witness :
    (tryEnter 5).2 = 5 :=
  (C2_admission_counting 7).2.2.1 5 (by decide)

/-- A fixed collaborator-outcome assignment used to instantiate theorems. -/
def oraclesW : Oracles := ⟨true, fun _ => .emptyResult, fun _ => true⟩

/-- Claim C3: Release discipline.  An admitted `/transcribe` request
decrements the in-flight counter exactly once on every exit path — the
quantification over the request and the oracles covers success, validation
failure, transcoding failure, inference failure (all four kinds, at either
call) and delivery failure — and restores the counter; a rejected request
never decrements and leaves the counter unchanged. -/
theorem C3_release_discipline (st : ServerState) (c : Nat) (req : Option UploadFile)
    (o : Oracles) :
    (c < MAX_CONCURRENT_REQUESTS →
      (transcribeHandler st c req o).leaves = 1 ∧
      (transcribeHandler st c req o).admitted = true ∧
      (transcribeHandler st c req o).counter = c) ∧
    (MAX_CONCURRENT_REQUESTS ≤ c →
      (transcribeHandler st c req o).leaves = 0 ∧
      (transcribeHandler st c req o).admitted = false ∧
      (transcribeHandler st c req o).counter = c) := by
  constructor
  · intro h
    have he : tryEnter c = (true, c + 1) := by rw [tryEnter, if_neg (Nat.not_le.mpr h)]
    simp [transcribeHandler, he, leave]
  · intro h
    have he : tryEnter c = (false, c) := by rw [tryEnter, if_pos h]
    simp [transcribeHandler, he]

/-- Concrete instantiation of the release discipline for an admitted
request (idle counter, missing file payload). -/
theorem C3_release_discipline_witness :
    (transcribeHandler initialState 0 none oraclesW).leaves = 1 ∧
    (transcribeHandler initialState 0 none oraclesW).admitted = true ∧
    (transcribeHandler initialState 0 none oraclesW).counter = 0 :=
  (C3_release_discipline initialState 0 none oraclesW).1 (by decide)

theorem transcriptionReply_state (st : ServerState) : (transcriptionReply st).state = st := by
  unfold transcriptionReply
  repeat' split
  all_goals rfl

theorem askReply_state (st : ServerState) (t : Str) (infer : Nat → InferResult) :
    (askReply st t infer).state = st := by
  unfold askReply
  dsimp only
  repeat' split
  all_goals rfl

theorem amendInstruction_awaiting (st : ServerState) (infer : Nat → InferResult) :
    (amendInstruction st infer).state.awaitingAmendment = false := by
  unfold amendInstruction
  repeat' split
  all_goals rfl

theorem amendInstruction_lastSummary (st : ServerState) (infer : Nat → InferResult) :
    (amendInstruction st infer).state.lastSummary = st.lastSummary := by
  unfold amendInstruction
  repeat' split
  all_goals rfl

theorem processMessage_lastSummary (cfg : Str) (st : ServerState) (chatId text : Option Str)
    (infer : Nat → InferResult) :
    (processMessage cfg st chatId text infer).state.lastSummary = st.lastSummary := by
  unfold processMessage
  repeat' split
  all_goals
    simp [transcriptionReply_state, amendEnable, amendInstruction_lastSummary, askReply_state]

theorem processMessage_awaiting_source (cfg : Str) (st : ServerState) (chatId text : Option Str)
    (infer : Nat → InferResult) :
    (processMessage cfg st chatId text infer).state.awaitingAmendment = true →
    st.awaitingAmendment = true ∨ st.lastSummary ≠ none := by
  unfold processMessage
  repeat' split
  all_goals intro hr
  all_goals
    simp_all [transcriptionReply_state, amendEnable, amendInstruction_awaiting, askReply_state]

theorem transcribeTry_awaiting (st : ServerState) (req : Option UploadFile) (o : Oracles) :
    (transcribeTry st req o).state.awaitingAmendment = st.awaitingAmendment := by
  unfold transcribeTry
  dsimp only
  repeat' split
  all_goals rfl

theorem transcribeTry_lastSummary (st : ServerState) (req : Option UploadFile) (o : Oracles) :
    (transcribeTry st req o).state.lastSummary = st.lastSummary ∨
    ∃ v, (transcribeTry st req o).state.lastSummary = some v := by
  unfold transcribeTry
  dsimp only
  repeat' split
  all_goals first | exact Or.inl rfl | exact Or.inr ⟨_, rfl⟩

theorem transcribeRoute_state (st : ServerState) (c : Nat) (req : Option UploadFile)
    (o : Oracles) :
    (transcribeRoute st c req o).state = st ∨
    (transcribeRoute st c req o).state = (transcribeTry st req o).state := by
  unfold transcribeRoute transcribeHandler
  repeat' split
  all_goals first | exact Or.inl rfl | exact Or.inr rfl

theorem reachable_invariant (st : ServerState) (h : Reachable st) :
    st.awaitingAmendment = true → st.lastSummary ≠ none := by
  induction h with
  | init => intro ha; simp [initialState] at ha
  | chat st cfg chatId text infer _ ih =>
    intro ha
    rw [processMessage_lastSummary]
    rcases processMessage_awaiting_source cfg st chatId text infer ha with h1 | h1
    · exact ih h1
    · exact h1
  | http st c req o _ ih =>
    intro ha
    rcases transcribeRoute_state st c req o with h1 | h1
    · rw [h1] at ha ⊢
      exact ih ha
    · rw [h1] at ha ⊢
      rw [transcribeTry_awaiting] at ha
      rcases transcribeTry_lastSummary st req o with h2 | h2
      · rw [h2]
        exact ih ha
      · rcases h2 with ⟨v, h2⟩
        rw [h2]
        simp

theorem processMessage_amend_noop (cfg : Str) (st : ServerState) (infer : Nat → InferResult)
    (h : st.lastSummary = none) :
    processMessage cfg st (some cfg) (some "/amend".data) infer = ⟨st, [], 0⟩ := by
  unfold processMessage
  rw [if_pos rfl]
  have h1 : ("/amend".data = ([] : Str)) = False := by decide
  have h2 : (jsTrim "/amend".data = "/transcription".data) = False := by decide
  have h4 : (jsStartsWith "/amend".data "/ask".data = true) = False := by decide
  simp [h, h1, h2, h4]

theorem processMessage_clears_flag (cfg : Str) (st : ServerState) (t : Str)
    (infer : Nat → InferResult)
    (h1 : st.awaitingAmendment = true) (h2 : st.lastSummary ≠ none)
    (h3 : t ≠ []) (h4 : jsTrim t ≠ "/transcription".data) (h5 : jsTrim t ≠ "/amend".data) :
    (processMessage cfg st (some cfg) (some t) infer).state.awaitingAmendment = false := by
  unfold processMessage
  rw [if_pos rfl]
  dsimp only
  rw [if_neg h3, if_neg h4, if_neg (fun hc => h5 hc.2), if_pos ⟨h2, h1, h5⟩]
  exact amendInstruction_awaiting st infer

/-- Claim C4: Amendment invariant.  For every reachable conversation state,
`awaitingAmendment = true` implies a transcription is stored; an `/amend`
message received while no transcription is stored is a no-op (state
unchanged, nothing sent, no inference call); and any non-command message —
nonempty text whose trimmed form is neither of the recognized commands
`/transcription` and `/amend` — received while `awaitingAmendment = true`
clears the flag to false in that single transition, regardless of the
outcome of the resulting inference call (the quantification over `infer`
covers success and every failure kind). -/
theorem C4_amendment_invariant (cfg : Str) :
    (∀ st, Reachable st → st.awaitingAmendment = true → st.lastSummary ≠ none) ∧
    (∀ st infer, st.lastSummary = none →
      processMessage cfg st (some cfg) (some "/amend".data) infer = ⟨st, [], 0⟩) ∧
    (∀ st t infer, st.awaitingAmendment = true → st.lastSummary ≠ none →
      t ≠ [] → jsTrim t ≠ "/transcription".data → jsTrim t ≠ "/amend".data →
      (processMessage cfg st (some cfg) (some t) infer).state.awaitingAmendment = false) :=
  ⟨fun st h => reachable_invariant st h,
   fun st infer h => processMessage_amend_noop cfg st infer h,
   fun st t infer h1 h2 h3 h4 h5 => processMessage_clears_flag cfg st t infer h1 h2 h3 h4 h5⟩

/-- Concrete instantiation of the amendment invariant: `/amend` with no
stored transcription is a no-op, and a plain message while awaiting
amendment clears the flag. -/
theorem C4_amendment_invariant_witness :
    processMessage "42".data initialState (some "42".data) (some "/amend".data)
      oraclesW.infer = ⟨initialState, [], 0⟩ ∧
    (processMessage "42".data ⟨some "T".data, some "S".data, true⟩ (some "42".data)
      (some "make it shorter".data) oraclesW.infer).state.awaitingAmendment = false :=
  ⟨(C4_amendment_invariant "42".data).2.1 initialState oraclesW.infer rfl,
   (C4_amendment_invariant "42".data).2.2 ⟨some "T".data, some "S".data, true⟩
     "make it shorter".data oraclesW.infer rfl (by decide) (by decide) (by decide) (by decide)⟩

theorem transcribeHandler_admitted (st : ServerState) (c : Nat) (req : Option UploadFile)
    (o : Oracles) (hc : c < MAX_CONCURRENT_REQUESTS) :
    transcribeHandler st c req o =
      ⟨(transcribeTry st req o).state, c, (transcribeTry st req o).status,
       (transcribeTry st req o).body, (transcribeTry st req o).sends,
       (transcribeTry st req o).transcoded, (transcribeTry st req o).inferCalls, 1, true⟩ := by
  unfold transcribeHandler
  rw [tryEnter, if_neg (Nat.not_le.mpr hc)]
  simp [leave]

/-- A 10 MB + 1 byte upload with an extension outside the allow-list. -/
def bigXyzUpload : UploadFile := ⟨"clip.xyz".data, 10 * 1024 * 1024 + 1, true⟩

/-- Counterexample to claim C5 as stated: for the upload `clip.xyz` with a
payload one byte over the 10 MB threshold, the handler attempts ffmpeg
transcoding (the compression step runs before the extension check in
src/server.js lines 281-316) even though the request then terminates with
the HTTP 400 validation failure. -/
theorem C5_counterexample :
    (transcribeHandler initialState 0 (some bigXyzUpload) oraclesW).transcoded = true ∧
    (transcribeHandler initialState 0 (some bigXyzUpload) oraclesW).status = 400 := by
  decide

theorem transcribeTry_unsupported (st : ServerState) (f : UploadFile) (o : Oracles)
    (hb : f.bufferAvail = true)
    (h1 : jsEndsWith f.originalname ".mp3".data = false)
    (h2 : jsEndsWith f.originalname ".wav".data = false)
    (h3 : jsEndsWith f.originalname ".flac".data = false)
    (h4 : jsEndsWith f.originalname ".m4a".data = false)
    (htr : MAX_FILE_SIZE_BEFORE_COMPRESSION < f.size → o.transcodeOk = true) :
    transcribeTry st (some f) o =
      ⟨st, 400, "Unsupported audio file type. Please use .mp3, .wav, .flac, or .m4a.".data,
       [], decide (MAX_FILE_SIZE_BEFORE_COMPRESSION < f.size), 0⟩ := by
  unfold transcribeTry
  dsimp only
  rw [if_neg (by simp [hb])]
  rw [if_neg (fun hcp => absurd hcp.2 (by simp [htr hcp.1]))]
  rw [if_neg (by simp [h1, h2, h3, h4])]

theorem transcribeTry_transcode_fail (st : ServerState) (f : UploadFile) (o : Oracles)
    (hb : f.bufferAvail = true)
    (hs : MAX_FILE_SIZE_BEFORE_COMPRESSION < f.size) (ht : o.transcodeOk = false) :
    transcribeTry st (some f) o =
      ⟨st, 500, "Error processing audio file: ffmpeg failed".data, [], true, 0⟩ := by
  unfold transcribeTry
  dsimp only
  rw [if_neg (by simp [hb])]
  rw [if_pos ⟨hs, ht⟩]

/-- Claim C5, amended.  An upload whose filename extension is outside the
allow-list always terminates with the HTTP 400 validation failure, no
inference call, no chat message and no state mutation, and for payloads at
most 10 MB no transcoding is attempted; but the compression step runs
before the extension check, so for payloads over 10 MB transcoding is
attempted first (and its failure yields HTTP 500 before validation). -/
theorem C5_validation_order (st : ServerState) (c : Nat) (f : UploadFile) (o : Oracles)
    (hc : c < MAX_CONCURRENT_REQUESTS) (hb : f.bufferAvail = true)
    (h1 : jsEndsWith f.originalname ".mp3".data = false)
    (h2 : jsEndsWith f.originalname ".wav".data = false)
    (h3 : jsEndsWith f.originalname ".flac".data = false)
    (h4 : jsEndsWith f.originalname ".m4a".data = false) :
    (f.size ≤ MAX_FILE_SIZE_BEFORE_COMPRESSION →
      (transcribeHandler st c (some f) o).status = 400 ∧
      (transcribeHandler st c (some f) o).transcoded = false ∧
      (transcribeHandler st c (some f) o).state = st ∧
      (transcribeHandler st c (some f) o).sends = [] ∧
      (transcribeHandler st c (some f) o).inferCalls = 0) ∧
    (MAX_FILE_SIZE_BEFORE_COMPRESSION < f.size → o.transcodeOk = true →
      (transcribeHandler st c (some f) o).status = 400 ∧
      (transcribeHandler st c (some f) o).transcoded = true ∧
      (transcribeHandler st c (some f) o).state = st ∧
      (transcribeHandler st c (some f) o).sends = [] ∧
      (transcribeHandler st c (some f) o).inferCalls = 0) ∧
    (MAX_FILE_SIZE_BEFORE_COMPRESSION < f.size → o.transcodeOk = false →
      (transcribeHandler st c (some f) o).status = 500 ∧
      (transcribeHandler st c (some f) o).transcoded = true ∧
      (transcribeHandler st c (some f) o).state = st ∧
      (transcribeHandler st c (some f) o).sends = [] ∧
      (transcribeHandler st c (some f) o).inferCalls = 0) := by
  rw [transcribeHandler_admitted st c (some f) o hc]
  refine ⟨?_, ?_, ?_⟩
  · intro hs
    rw [transcribeTry_unsupported st f o hb h1 h2 h3 h4 (fun hlt => absurd hlt (Nat.not_lt.mpr hs))]
    refine ⟨rfl, ?_, rfl, rfl, rfl⟩
    simp [Nat.not_lt.mpr hs]
  · intro hs ht
    rw [transcribeTry_unsupported st f o hb h1 h2 h3 h4 (fun _ => ht)]
    refine ⟨rfl, ?_, rfl, rfl, rfl⟩
    simp [hs]
  · intro hs ht
    rw [transcribeTry_transcode_fail st f o hb hs ht]
    exact ⟨rfl, rfl, rfl, rfl, rfl⟩

/-- Concrete instantiation of the amended C5: a small `clip.xyz` upload is
rejected with 400, untranscoded, nothing sent, nothing mutated. -/
theorem C5_validation_order_witness :
    (transcribeHandler initialState 0 (some ⟨"clip.xyz".data, 100, true⟩) oraclesW).status = 400 ∧
    (transcribeHandler initialState 0 (some ⟨"clip.xyz".data, 100, true⟩) oraclesW).transcoded = false ∧
    (transcribeHandler initialState 0 (some ⟨"clip.xyz".data, 100, true⟩) oraclesW).state = initialState ∧
    (transcribeHandler initialState 0 (some ⟨"clip.xyz".data, 100, true⟩) oraclesW).sends = [] ∧
    (transcribeHandler initialState 0 (some ⟨"clip.xyz".data, 100, true⟩) oraclesW).inferCalls = 0 :=
  (C5_validation_order initialState 0 ⟨"clip.xyz".data, 100, true⟩ oraclesW
    (by decide) (by decide) (by decide) (by decide) (by decide) (by decide)).1 (by decide)

theorem transcribeTry_transcript_stored (st : ServerState) (f : UploadFile) (o : Oracles)
    (t : Str) (hb : f.bufferAvail = true)
    (hext : jsEndsWith f.originalname ".mp3".data = true ∨
            jsEndsWith f.originalname ".wav".data = true ∨
            jsEndsWith f.originalname ".flac".data = true ∨
            jsEndsWith f.originalname ".m4a".data = true)
    (htr : MAX_FILE_SIZE_BEFORE_COMPRESSION < f.size → o.transcodeOk = true)
    (h0 : o.infer 0 = InferResult.ok t) :
    (transcribeTry st (some f) o).state.lastSummary = some (jsTrim t) := by
  unfold transcribeTry
  dsimp only
  rw [if_neg (by simp [hb])]
  rw [if_neg (fun hcp => absurd hcp.2 (by simp [htr hcp.1]))]
  rw [if_pos hext, h0]
  dsimp only
  repeat' split
  all_goals rfl

/-- Claim C6: Partial-success preservation.  When the transcription call
succeeds with text `t` (so the trimmed transcript is stored) and the
subsequent summarization call fails — the hypothesis excludes only the
success constructor, so transport errors, remote errors, overload and the
empty-candidate shape are all covered, as is any delivery outcome — the
stored transcript is left unchanged by the failure and remains retrievable
after the failed request (`GET /summary` serves `lastSummary` with 200). -/
theorem C6_partial_success (st : ServerState) (c : Nat) (f : UploadFile) (o : Oracles)
    (t : Str) (hc : c < MAX_CONCURRENT_REQUESTS) (hb : f.bufferAvail = true)
    (hext : jsEndsWith f.originalname ".mp3".data = true ∨
            jsEndsWith f.originalname ".wav".data = true ∨
            jsEndsWith f.originalname ".flac".data = true ∨
            jsEndsWith f.originalname ".m4a".data = true)
    (htr : MAX_FILE_SIZE_BEFORE_COMPRESSION < f.size → o.transcodeOk = true)
    (h0 : o.infer 0 = InferResult.ok t)
    (h1 : ∀ s, o.infer 1 ≠ InferResult.ok s) :
    (transcribeHandler st c (some f) o).state.lastSummary = some (jsTrim t) ∧
    getSummary (transcribeHandler st c (some f) o).state = (200, some (jsTrim t)) := by
  rw [transcribeHandler_admitted st c (some f) o hc]
  have key := transcribeTry_transcript_stored st f o t hb hext htr h0
  exact ⟨key, by simp [getSummary, key]⟩

/-- Oracle assignment where transcription succeeds and summarization is
rejected with a generic remote error. -/
def oraclesC6 : Oracles :=
  ⟨true, fun n => if n = 0 then InferResult.ok " The transcript. ".data
                  else InferResult.remoteError "bad".data, fun _ => true⟩

/-- Concrete instantiation of C6: a small `clip.mp3` upload whose
summarization call fails still leaves the trimmed transcript stored and
retrievable. -/
theorem C6_partial_success_witness :
    (transcribeHandler initialState 0 (some ⟨"clip.mp3".data, 100, true⟩) oraclesC6).state.lastSummary
      = some (jsTrim " The transcript. ".data) ∧
    getSummary (transcribeHandler initialState 0 (some ⟨"clip.mp3".data, 100, true⟩) oraclesC6).state
      = (200, some (jsTrim " The transcript. ".data)) :=
  C6_partial_success initialState 0 ⟨"clip.mp3".data, 100, true⟩ oraclesC6
    " The transcript. ".data (by decide) (by decide) (Or.inl (by decide)) (by decide)
    (by decide) (fun s h => by simp [oraclesC6] at h)

/-- A stored transcription of exactly 4096 characters. -/
def longTranscript : Str := List.replicate 4096 'a'

/-- Counterexample to claim C7 as stated: with a 4096-character stored
transcription, the `/transcription` replay prepends the 17-character
`Transcription:` header to an already-maximal fragment, so the first text
passed to `bot.sendMessage` has 4113 characters, over the 4096-character
transport limit. -/
theorem C7_counterexample :
    MAX_TELEGRAM_MESSAGE_LENGTH <
      ((processMessage "42".data ⟨some longTranscript, none, false⟩ (some "42".data)
        (some "/transcription".data) oraclesW.infer).sends.headD []).length := by
  have hne : longTranscript ≠ [] := by decide
  have hlen : longTranscript.length = 4096 := by
    rw [show longTranscript = List.replicate 4096 'a' from rfl, List.length_replicate]
  have htrim : jsTrim longTranscript ≠ [] := by
    set_option maxRecDepth 20000 in decide
  have hsplit : splitMessage longTranscript MAX_TELEGRAM_MESSAGE_LENGTH = [longTranscript] :=
    splitMessage_single longTranscript MAX_TELEGRAM_MESSAGE_LENGTH hne
      (by rw [hlen]; decide)
  unfold processMessage
  rw [if_pos rfl]
  dsimp only
  rw [if_neg (by decide), if_pos (by decide)]
  unfold transcriptionReply
  dsimp only
  rw [if_pos ⟨hne, htrim⟩, hsplit]
  dsimp only [List.headD]
  rw [List.length_append, hlen]
  decide

theorem deliver_mem (sendOk : Nat → Bool) (l : List Str) :
    ∀ i, ∀ m ∈ (deliver sendOk i l).1, m ∈ l := by
  induction l with
  | nil => intro i m hm; simp [deliver] at hm
  | cons a rest ih =>
    intro i m hm
    rw [deliver] at hm
    by_cases hs : sendOk i
    · rw [if_pos hs] at hm
      rcases List.mem_cons.mp hm with h | h
      · simp [h]
      · exact List.mem_cons_of_mem a (ih (i + 1) m h)
    · rw [if_neg hs] at hm
      simp at hm
      simp [hm]

theorem transcribeTry_sends_bounded (st : ServerState) (req : Option UploadFile)
    (o : Oracles) :
    ∀ m ∈ (transcribeTry st req o).sends, m.length ≤ MAX_TELEGRAM_MESSAGE_LENGTH := by
  have hnotice : overloadNotice.length ≤ MAX_TELEGRAM_MESSAGE_LENGTH := by decide
  unfold transcribeTry
  dsimp only
  repeat' split
  all_goals intro m hm
  all_goals try dsimp only at hm
  all_goals
    first
    | exact (List.not_mem_nil m hm).elim
    | (rw [List.mem_singleton] at hm; subst hm; exact hnotice)
    | exact splitMessage_mem_length _ MAX_TELEGRAM_MESSAGE_LENGTH m
        (deliver_mem o.sendOk _ 0 m hm)

/-- Claim C7, amended.  Every text the `/transcribe` upload pipeline passes
to `bot.sendMessage` — the chunked summary delivery and the fixed overload
notices — has length at most the 4096-character transport limit; the
chat-dispatcher delivery paths do not share this bound, because the
`/transcription` replay prepends a header after chunking and the amendment,
answer and override notifications embed unchunked inference or user text. -/
theorem C7_outbound_bound (st : ServerState) (c : Nat) (req : Option UploadFile)
    (o : Oracles) :
    ∀ m ∈ (transcribeHandler st c req o).sends, m.length ≤ MAX_TELEGRAM_MESSAGE_LENGTH := by
  unfold transcribeHandler
  split
  · intro m hm
    simp at hm
  · intro m hm
    exact transcribeTry_sends_bounded st req o m hm

/-- Oracle assignment where the transcription call reports overload. -/
def oraclesOverload : Oracles := ⟨true, fun _ => InferResult.overloaded, fun _ => true⟩

/-- Concrete instantiation of the amended C7: the overload notice sent by
the pipeline respects the transport limit. -/
theorem C7_outbound_bound_witness :
    overloadNotice.length ≤ MAX_TELEGRAM_MESSAGE_LENGTH :=
  C7_outbound_bound initialState 0 (some ⟨"clip.mp3".data, 100, true⟩) oraclesOverload
    overloadNotice (by decide)

/-- Claim C8 evaluation (code bug).  `GET /summary` serves `lastSummary` —
the variable that stores the full transcription (src/server.js line 24) —
and its 404 guard also tests `lastSummary`: in a state where the
transcription is `"T"` and no summary was ever produced it answers 200
with the transcript instead of 404, and in a state whose summary is `"S"`
it answers with the transcript `"T"`, not the stored summary. -/
theorem C8_summary_endpoint_eval :
    getSummary ⟨some "T".data, none, false⟩ = (200, some "T".data) ∧
    getSummary ⟨some "T".data, some "S".data, false⟩ = (200, some "T".data) ∧
    "T".data ≠ "S".data :=
  ⟨rfl, rfl, by decide⟩

/-- Counterexample to claim C9 as stated: in the initial state (no
transcript), the free-text message `hello` from the configured chat, with
`awaitingAmendment = false`, is ignored — the summary is not set and no
acknowledgment is sent — because the override branch (src/server.js line
237) additionally requires `lastSummary !== null`. -/
theorem C9_counterexample :
    processMessage "42".data initialState (some "42".data) (some "hello".data)
      oraclesW.infer = ⟨initialState, [], 0⟩ := by
  decide

theorem not_startsWith_ask (t : Str) (h : jsStartsWith t "/".data = false) :
    jsStartsWith t "/ask".data = false := by
  cases t with
  | nil => decide
  | cons a t' =>
    unfold jsStartsWith at h ⊢
    rw [show "/".data = ['/'] from rfl] at h
    rw [show "/ask".data = ['/', 'a', 's', 'k'] from rfl]
    simp [List.isPrefixOf] at h ⊢
    intro hc
    exact absurd hc h

/-- Claim C9, amended.  A message with nonempty text that does not start
with `/` (and is not a whitespace-padded `/transcription` or `/amend`
command), received from the configured chat while `awaitingAmendment =
false`, sets the summary to the raw message text and sends the
acknowledgment — provided a transcription is already stored
(`lastSummary != null`), a precondition the code imposes and the claim
omitted. -/
theorem C9_summary_override (cfg : Str) (st : ServerState) (s t : Str)
    (infer : Nat → InferResult)
    (h1 : st.lastSummary = some s) (h2 : st.awaitingAmendment = false)
    (h3 : t ≠ []) (h4 : jsStartsWith t "/".data = false)
    (h5 : jsTrim t ≠ "/transcription".data) (h6 : jsTrim t ≠ "/amend".data) :
    processMessage cfg st (some cfg) (some t) infer =
      ⟨{ st with originalSummary := some t }, ["Summary updated:\n\n".data ++ t], 0⟩ := by
  unfold processMessage
  rw [if_pos rfl]
  dsimp only
  rw [if_neg h3, if_neg h5, if_neg (fun hc => h6 hc.2),
      if_neg (fun hc => by simp [h2] at hc),
      if_neg (by simp [not_startsWith_ask t h4]),
      if_pos ⟨by simp [h1], h2, h4⟩]

/-- Concrete instantiation of the amended C9: with a stored transcription,
the free-text message `hello` overwrites the summary and is acknowledged. -/
theorem C9_summary_override_witness :
    processMessage "42".data ⟨some "T".data, none, false⟩ (some "42".data)
      (some "hello".data) oraclesW.infer =
      ⟨⟨some "T".data, some "hello".data, false⟩,
       ["Summary updated:\n\n".data ++ "hello".data], 0⟩ :=
  C9_summary_override "42".data ⟨some "T".data, none, false⟩ "T".data "hello".data
    oraclesW.infer rfl rfl (by decide) (by decide) (by decide) (by decide)

/-- Claim C10: implicit upload size cap.  A `POST /transcribe` whose file
payload exceeds the 50 MB multer limit is answered 413 with an error body
before the admission gate and the handler run: the conversation state, the
admission counter and the in-flight count are untouched, nothing is
transcoded, no inference call is attempted and no chat message is sent. -/
theorem C10_upload_size_cap (st : ServerState) (c : Nat) (f : UploadFile) (o : Oracles)
    (h : fiftyMB < f.size) :
    transcribeRoute st c (some f) o =
      ⟨st, c, 413, "File too large. Please upload a file smaller than 50MB.".data,
       [], false, 0, 0, false⟩ := by
  unfold transcribeRoute
  dsimp only
  rw [if_pos h]

/-- Concrete instantiation of C10 at a payload of 50 MB + 1 byte. -/
theorem C10_upload_size_cap_witness :
    transcribeRoute initialState 0 (some ⟨"clip.mp3".data, 52428801, true⟩) oraclesW =
      ⟨initialState, 0, 413, "File too large. Please upload a file smaller than 50MB.".data,
       [], false, 0, 0, false⟩ :=
  C10_upload_size_cap initialState 0 ⟨"clip.mp3".data, 52428801, true⟩ oraclesW (by decide)
